import Mathlib

/-!
Shallow embedding of the KTS transport-management repository
(`src/app.py` and `src/KTS_Transport/KTS_Transport.py`).

Modelling conventions:
* Python dicts (which preserve insertion order and have unique keys) are
  modelled as ordered association lists `List (String × α)` with the
  operations `dget` (subscript / `.get`), `dset` (`d[k] = v`: replace in
  place if the key exists, else append) and `ddel` (`del d[k]`).
* Python floats are modelled as rationals (`Rat`); binary rounding of IEEE
  doubles is ignored.  `pyFloat` models `float(s)` on strings for ordinary
  decimal literals with optional sign, fraction and exponent (the special
  forms `inf`, `nan`, underscores and non-ASCII digits are not modelled:
  no value in the repository or the claims uses them).
* GUI callbacks that either warn-and-return, raise an uncaught exception,
  or mutate-and-save are modelled as functions into `Outcome`, whose three
  constructors record the resulting data state; `Outcome.ok` means the
  callback reached its `save_data` call.
-/

namespace KTS

/-- Result of a GUI save callback.  `valError s`: a validation warning was
shown and the callback returned early with state `s` (no save).
`exn s`: an uncaught Python exception escaped, leaving state `s` (no save).
`ok s`: the callback completed, leaving state `s` and calling `save_data`. -/
inductive Outcome (α : Type) where
  | valError (s : α)
  | exn (s : α)
  | ok (s : α)
deriving DecidableEq, Repr

/-- Python `d[k]` / `d.get(k)` on an ordered association list: the value of
the first (unique) binding of `k`. -/
def dget {α : Type} : List (String × α) → String → Option α
  | [], _ => none
  | (k', v) :: t, k => if k' = k then some v else dget t k

/-- Python `d[k] = v`: replace the binding in place if `k` is present
(preserving insertion order, as CPython dicts do), else append. -/
def dset {α : Type} : List (String × α) → String → α → List (String × α)
  | [], k, v => [(k, v)]
  | (k', v') :: t, k, v => if k' = k then (k, v) :: t else (k', v') :: dset t k v

/-- Python `del d[k]`: drop the binding of `k` (all occurrences; with the
dict invariant of unique keys there is exactly one). -/
def ddel {α : Type} : List (String × α) → String → List (String × α)
  | [], _ => []
  | (k', v) :: t, k => if k' = k then ddel t k else (k', v) :: ddel t k

theorem dget_dset_self {α : Type} (m : List (String × α)) (k : String) (v : α) :
    dget (dset m k v) k = some v := by
  induction m with
  | nil => simp [dget, dset]
  | cons p t ih =>
    by_cases h : p.1 = k
    · simp [dset, dget, h]
    · simp [dset, dget, h, ih]

theorem dget_dset_ne {α : Type} (m : List (String × α)) {k k' : String} (v : α)
    (h : k' ≠ k) : dget (dset m k v) k' = dget m k' := by
  induction m with
  | nil => simp [dget, dset, Ne.symm h]
  | cons p t ih =>
    by_cases hp : p.1 = k
    · simp [dset, dget, hp, Ne.symm h]
    · by_cases hp' : p.1 = k'
      · simp [dset, dget, hp, hp', h]
      · simp [dset, dget, hp, hp', ih]

theorem dget_ddel_self {α : Type} (m : List (String × α)) (k : String) :
    dget (ddel m k) k = none := by
  induction m with
  | nil => simp [dget, ddel]
  | cons p t ih =>
    by_cases h : p.1 = k
    · simp [ddel, h, ih]
    · simp [ddel, dget, h, ih]

theorem dget_ddel_ne {α : Type} (m : List (String × α)) {k k' : String}
    (h : k' ≠ k) : dget (ddel m k) k' = dget m k' := by
  induction m with
  | nil => simp [ddel]
  | cons p t ih =>
    by_cases hp : p.1 = k
    · by_cases hp' : p.1 = k'
      · exact absurd (hp' ▸ hp) h
      · simp [ddel, dget, hp, hp', ih, Ne.symm h]
    · simp [ddel, dget, hp, ih]

/-- Numeric value of a list of decimal digit characters. -/
def digitsToNat (l : List Char) : Nat :=
  l.foldl (fun a c => a * 10 + (c.toNat - 48)) 0

/-- Model of Python `float(s)` for strings: strip surrounding whitespace,
optional sign, decimal digits with optional fraction and optional decimal
exponent; anything else raises `ValueError`, modelled as `none`. -/
def pyFloat (s : String) : Option Rat :=
  let cs := (s.toList.dropWhile Char.isWhitespace).reverse.dropWhile Char.isWhitespace |>.reverse
  let signApplied : Rat × List Char :=
    match cs with
    | '+' :: t => (1, t)
    | '-' :: t => (-1, t)
    | t => (1, t)
  let sgn := signApplied.1
  let cs := signApplied.2
  let ip := cs.takeWhile Char.isDigit
  let r1 := cs.drop ip.length
  let fracSplit : List Char × List Char :=
    match r1 with
    | '.' :: t => (t.takeWhile Char.isDigit, t.drop (t.takeWhile Char.isDigit).length)
    | _ => ([], r1)
  let fp := fracSplit.1
  let r2 := fracSplit.2
  if ip.isEmpty && fp.isEmpty then none
  else
    let base : Rat := sgn * ((digitsToNat ip : Rat) + (digitsToNat fp : Rat) / (10 ^ fp.length))
    match r2 with
    | [] => some base
    | e :: t =>
      if e = 'e' ∨ e = 'E' then
        let expSplit : Bool × List Char :=
          match t with
          | '+' :: u => (false, u)
          | '-' :: u => (true, u)
          | u => (false, u)
        let eneg := expSplit.1
        let ed := expSplit.2
        if ed.isEmpty || !ed.all Char.isDigit then none
        else some (if eneg then base / 10 ^ digitsToNat ed else base * 10 ^ digitsToNat ed)
      else none

/-- Python `s.lower()` (ASCII range, as used by the vehicle filter). -/
def pyLower (s : String) : String := ⟨s.toList.map Char.toLower⟩

/-- Python `s.strip()`: drop leading and trailing whitespace. -/
def pyStrip (s : String) : String :=
  ⟨((s.toList.dropWhile Char.isWhitespace).reverse.dropWhile Char.isWhitespace).reverse⟩

/-! ### `app.py`: vehicles, trips, the shared Document -/

/-- A vehicle's detail dict in `app.py` (string values, open key set:
loaded JSON may carry extra keys such as `driver_experience`). -/
abbrev VRec := List (String × String)

/-- The fresh record built by the add branch of
`VehicleDriverWidget.add_edit_vehicle.on_save` (`app.py` 314-319). -/
def newVehicleRec (name driver loanTotal loanPaid : String) : VRec :=
  [("name", name), ("driver_name", driver),
   ("loan_total", loanTotal), ("loan_paid", loanPaid)]

/-- The in-place field updates of the edit branch (`app.py` 308-311). -/
def setVehicleFields (r : VRec) (name driver loanTotal loanPaid : String) : VRec :=
  dset (dset (dset (dset r "name" name) "driver_name" driver)
    "loan_total" loanTotal) "loan_paid" loanPaid

/-- `new_id = str(len(self.data[self.data_key]) + 1)` (`app.py` 313). -/
def newVehicleId (vs : List (String × VRec)) : String := toString (vs.length + 1)

/-- Python truthiness of the `vehicle_id` argument of `add_edit_vehicle`
(`None` and the empty string are falsy). -/
def isTruthyOpt : Option String → Bool
  | none => false
  | some s => s ≠ ""

/-- `VehicleDriverWidget.add_edit_vehicle.on_save` (`app.py` 297-323),
acting on the `vehicles` dict.  Empty name or driver: warning, early
return, no mutation, no save.  Edit branch with a missing id: `KeyError`
escapes before any mutation.  Otherwise mutate and `save_data`. -/
def vehicleOnSave (vs : List (String × VRec)) (vehicleId : Option String)
    (name driver loanTotal loanPaid : String) : Outcome (List (String × VRec)) :=
  if name = "" ∨ driver = "" then .valError vs
  else if isTruthyOpt vehicleId then
    let vid := vehicleId.getD ""
    match dget vs vid with
    | none => .exn vs
    | some r => .ok (dset vs vid (setVehicleFields r name driver loanTotal loanPaid))
  else .ok (dset vs (newVehicleId vs) (newVehicleRec name driver loanTotal loanPaid))

/-- A trip record as built by `TripWidget.add_edit_trip.on_save`
(`app.py` 441-447). -/
structure TripA where
  vehicle_id : String
  date : String
  source : String
  destination : String
  distance : Rat
deriving DecidableEq, Repr

/-- A vehicle-expense record as built by
`VehicleExpensesWidget.add_edit_expense.on_save` (`app.py` 554-559). -/
structure VExpA where
  date : String
  vehicle_id : String
  description : String
  amount : Rat
deriving DecidableEq, Repr

/-- An office-expense record as built by
`OfficeExpensesWidget.add_edit_expense.on_save` (`app.py` 657-661). -/
structure OExpA where
  date : String
  description : String
  amount : Rat
deriving DecidableEq, Repr

/-- The top-level Document of `app.py` (`initialize_data`, lines 35-42). -/
structure AppDoc where
  vehicles : List (String × VRec)
  trips : List TripA
  vehicle_expenses : List VExpA
  office_expenses : List OExpA
deriving DecidableEq, Repr

/-- Add branch of `TripWidget.add_edit_trip.on_save` (`app.py` 423-452):
`not all([...])` rejects any empty field; `float(distance)` of a
non-numeric string raises before the append, so nothing is stored and no
save happens. -/
def tripOnSaveAdd (trips : List TripA) (vehicleId date source destination distance : String) :
    Outcome (List TripA) :=
  if vehicleId = "" ∨ date = "" ∨ source = "" ∨ destination = "" ∨ distance = "" then
    .valError trips
  else
    match pyFloat distance with
    | none => .exn trips
    | some q => .ok (trips ++ [⟨vehicleId, date, source, destination, q⟩])

/-- Edit branch of `TripWidget.add_edit_trip.on_save` (`app.py` 434-439):
the four string fields are assigned in place before `float(distance)` is
evaluated, so a non-numeric distance leaves the record partially updated
(with its old distance) and raises; no save happens. -/
def tripOnSaveEdit (t : TripA) (vehicleId date source destination distance : String) :
    Outcome TripA :=
  if vehicleId = "" ∨ date = "" ∨ source = "" ∨ destination = "" ∨ distance = "" then
    .valError t
  else
    match pyFloat distance with
    | none => .exn { t with vehicle_id := vehicleId, date := date,
                            source := source, destination := destination }
    | some q => .ok ⟨vehicleId, date, source, destination, q⟩

/-- `VehicleDriverWidget.delete_vehicle` (`app.py` 330-338), after the
user confirms: delete the entry if present and save; the returned flag
records whether `save_data` ran. -/
def deleteVehicle (doc : AppDoc) (vehicleId : String) : AppDoc × Bool :=
  if (dget doc.vehicles vehicleId).isSome then
    ({ doc with vehicles := ddel doc.vehicles vehicleId }, true)
  else (doc, false)

/-- `self.data['vehicles'].get(vid, {}).get('name', 'N/A')` — the name
lookup used by every table view (`app.py` 382, 501). -/
def resolveVehicleName (vs : List (String × VRec)) (vehicleId : String) : String :=
  match dget vs vehicleId with
  | none => "N/A"
  | some r => (dget r "name").getD "N/A"

/-- `details.get(k, 0)` then `float(...)` as in
`VehicleDriverWidget.create_vehicle_card` (`app.py` 247-249): an absent
key defaults to the number 0; a present string is parsed, and a
non-numeric string raises (modelled as `none`). -/
def loanField (r : VRec) (k : String) : Option Rat :=
  match dget r k with
  | none => some 0
  | some s => pyFloat s

/-- The loan figure displayed by `create_vehicle_card` (`app.py` 247-251):
`float(loan_total) - float(loan_paid)`, recomputed on each render. -/
def loanRemainingApp (r : VRec) : Option Rat :=
  match loanField r "loan_total", loanField r "loan_paid" with
  | some a, some b => some (a - b)
  | _, _ => none

/-! ### `KTS_Transport.py`: vehicle dialogs -/

/-- Round-half-to-even at integer precision (the tie-breaking used by
Python's string formatting; ties are irrelevant to every claim). -/
def roundHalfEven (q : Rat) : Int :=
  let f := ⌊q⌋
  let r := q - f
  if r < 1 / 2 then f else if 1 / 2 < r then f + 1 else if f % 2 = 0 then f else f + 1

/-- Two-digit zero-padded rendering of a value below 100. -/
def twoDigits (n : Nat) : String :=
  if n < 10 then "0" ++ toString n else toString n

/-- Model of the Python format `f"{x:.2f}"` on the rational model of a
float: two decimal places, half-to-even. -/
def fmt2 (q : Rat) : String :=
  let n := roundHalfEven (q * 100)
  (if n < 0 then "-" else "") ++ toString (n.natAbs / 100) ++ "." ++ twoDigits (n.natAbs % 100)

/-- `float(text or 0)` on a line-edit text (`KTS_Transport.py` 352-353):
the empty string is falsy and becomes `float(0) = 0`. -/
def parseLoan (s : String) : Option Rat :=
  if s = "" then some 0 else pyFloat s

/-- `VehicleEditDialog.save_and_accept` (`KTS_Transport.py` 350-363):
parse both loan texts (a `ValueError` is caught before any assignment:
warning, no change, no save); on success compute `remaining`, store it as
the `loan_remaining` field, store the four edited texts, and accept (the
caller `edit_vehicle` then rebinds the vehicle and saves). -/
def saveAndAccept (details : List (String × String))
    (driverName driverContact loanTotalText loanPaidText : String) :
    Outcome (List (String × String)) :=
  match parseLoan loanTotalText, parseLoan loanPaidText with
  | some total, some paid =>
    let remaining := total - paid
    .ok (dset (dset (dset (dset (dset details "loan_remaining" (fmt2 remaining))
      "driver_name" driverName) "driver_contact" driverContact)
      "loan_total" loanTotalText) "loan_paid" loanPaidText)
  | _, _ => .valError details

/-- `VehicleDriverPage.add_vehicle` (`KTS_Transport.py` 285-294), after
the dialog is accepted: strip the entered name; a non-empty name is bound
to a fresh empty details dict (replacing any existing binding of that
name) and saved; an empty name gets a warning and nothing changes. -/
def ktsAddVehicle (m : List (String × List (String × String))) (rawName : String) :
    Outcome (List (String × List (String × String))) :=
  let name := pyStrip rawName
  if name ≠ "" then .ok (dset m name []) else .valError m

/-! ### Storage gateway: `load_data` in both variants -/

/-- JSON values, the result type of `json.load`. -/
inductive Json where
  | null
  | bool (b : Bool)
  | num (q : Rat)
  | str (s : String)
  | arr (l : List Json)
  | obj (fields : List (String × Json))

/-- Key lookup on a JSON object (`j[k]` / `j.get(k)`). -/
def jget (j : Json) (k : String) : Option Json :=
  match j with
  | .obj fs => dget fs k
  | _ => none

/-- What the storage layer finds at the fixed path: no file, a file that
`json.load` rejects, or a file parsing to a JSON value. -/
inductive FileState where
  | missing
  | malformed
  | wellFormed (j : Json)

/-- `initialize_data` (`app.py` 35-42). -/
def initialize_data : Json :=
  .obj [("vehicles", .obj []), ("trips", .arr []),
        ("vehicle_expenses", .arr []), ("office_expenses", .arr [])]

/-- `load_data` (`app.py` 17-25): a missing file or a `JSONDecodeError`
falls back to `initialize_data`. -/
def load_data_app : FileState → Json
  | .missing => initialize_data
  | .malformed => initialize_data
  | .wellFormed j => j

/-- `load_data` (`KTS_Transport.py` 82-88): `FileNotFoundError` and
`JSONDecodeError` both fall back to the empty dict `{}`. -/
def load_data_kts : FileState → Json
  | .missing => .obj []
  | .malformed => .obj []
  | .wellFormed j => j

/-! ### Calendar dates and the expense filter (`KTS_Transport.py`) -/

/-- Proleptic Gregorian leap year, as used by `QDate`. -/
def isLeap (y : Int) : Bool :=
  (y % 4 == 0 && y % 100 != 0) || (y % 400 == 0)

/-- Days in a month of the Gregorian calendar. -/
def daysInMonth (y : Int) (m : Nat) : Nat :=
  if m = 2 then (if isLeap y then 29 else 28)
  else if m = 4 ∨ m = 6 ∨ m = 9 ∨ m = 11 then 30
  else 31

/-- A calendar date (valid dates have `1 ≤ month ≤ 12` and
`1 ≤ day ≤ daysInMonth`). -/
structure Date where
  year : Int
  month : Nat
  day : Nat
deriving DecidableEq, Repr

/-- `QDate` comparison `a <= b`: chronological, i.e. lexicographic on
(year, month, day) for valid dates. -/
def dleb (a b : Date) : Bool :=
  a.year < b.year ||
    (a.year == b.year && (a.month < b.month || (a.month == b.month && a.day ≤ b.day)))

/-- `QDate.addMonths` for valid input dates: shift the month index and
clamp the day to the length of the resulting month. -/
def addMonths (d : Date) (n : Int) : Date :=
  let t : Int := d.year * 12 + (d.month : Int) - 1 + n
  let y := Int.fdiv t 12
  let m := (Int.emod t 12).toNat + 1
  ⟨y, m, min d.day (daysInMonth y m)⟩

/-- `QDate.addYears` for valid input dates: shift the year and clamp the
day (Feb 29 → Feb 28 in a non-leap year). -/
def addYears (d : Date) (n : Int) : Date :=
  let y := d.year + n
  ⟨y, d.month, min d.day (daysInMonth y d.month)⟩

/-- `"-"`-separated fields of a character list (the shape `splitOn "-"`
produces for a one-character separator). -/
def splitDashes : List Char → List (List Char)
  | [] => [[]]
  | c :: t =>
    if c = '-' then [] :: splitDashes t
    else
      match splitDashes t with
      | h :: r => (c :: h) :: r
      | [] => [[c]]

/-- `QDate.fromString(s, "yyyy-MM-dd")`, as an `Option`: four digits,
dash, two digits, dash, two digits, nothing else, and the triple must be
a valid calendar date (there is no year 0); an invalid `QDate` — which is
falsy in the bindings' truth testing, the only way the filter consumes
it — is modelled as `none`. -/
def parseYMD (s : String) : Option Date :=
  match splitDashes s.toList with
  | [ys, ms, ds] =>
    if ys.length = 4 ∧ ms.length = 2 ∧ ds.length = 2
        ∧ ys.all Char.isDigit ∧ ms.all Char.isDigit ∧ ds.all Char.isDigit then
      let y : Int := (digitsToNat ys : Int)
      let m := digitsToNat ms
      let d := digitsToNat ds
      if y ≠ 0 ∧ 1 ≤ m ∧ m ≤ 12 ∧ 1 ≤ d ∧ d ≤ daysInMonth y m then
        some ⟨y, m, d⟩
      else none
    else none
  | _ => none

/-- The `date_from` bound chosen by `VehicleExpensesPage.apply_filters`
(`KTS_Transport.py` 719-731) from the combo text; any other text (the
combo only offers "All") leaves the bound disabled. -/
def dateFromOf (today : Date) (w : String) : Option Date :=
  if w = "Last 1 Month" then some (addMonths today (-1))
  else if w = "Last 3 Months" then some (addMonths today (-3))
  else if w = "Last 6 Months" then some (addMonths today (-6))
  else if w = "Last 12 Months" then some (addYears today (-1))
  else none

/-- `vehicle_match` (`KTS_Transport.py` 734): empty filter matches all;
otherwise the record needs a second cell equal, lowercased, to the
stripped-and-lowercased filter text. -/
def vehicleMatchB (vf : String) (r : List String) : Bool :=
  (vf == "") || (decide (1 < r.length) && (pyLower (r.getD 1 "") == vf))

/-- `record_date` (`KTS_Transport.py` 736): an empty first cell is falsy
and yields `None`; otherwise parse, invalid parses being `none` too. -/
def recordDateOf (r : List String) : Option Date :=
  if r.getD 0 "" = "" then none else parseYMD (r.getD 0 "")

/-- `date_match` (`KTS_Transport.py` 737-739): only when both a lower
bound and a record date exist is the inclusive range checked
(`date_to` is today whenever `date_from` is set). -/
def dateMatchB (dateFrom : Option Date) (today : Date) (rd : Option Date) : Bool :=
  match dateFrom, rd with
  | some df, some d => dleb df d && dleb d today
  | _, _ => true

/-- `VehicleExpensesPage.apply_filters` (`KTS_Transport.py` 714-744):
keep, in order, the records passing both the vehicle and the date test.
`today` stands for `QDate.currentDate()`. -/
def applyFilters (today : Date) (records : List (List String))
    (vehicleFilterText windowText : String) : List (List String) :=
  let vf := pyLower (pyStrip vehicleFilterText)
  let dateFrom := dateFromOf today windowText
  records.filter fun r => vehicleMatchB vf r && dateMatchB dateFrom today (recordDateOf r)

/-! ### Office monthly totals (`KTS_Transport.py`) -/

/-- One month's office record: a dict of category strings. -/
abbrev OfficeRec := List (String × String)

/-- The five totals shown by `OfficeDetailsPage.update_totals`. -/
structure OfficeTotals where
  rent : Rat
  bill : Rat
  salary : Rat
  other : Rat
  grand : Rat
deriving DecidableEq, Repr

/-- `float(data.get(k, 0) or 0)` (`KTS_Transport.py` 600-603): an absent
key gives the number 0; an empty string is falsy and gives 0; any other
string goes through `float`, and a non-numeric one raises (`.error`). -/
def officeField (d : OfficeRec) (k : String) : Except Unit Rat :=
  match dget d k with
  | none => .ok 0
  | some s =>
    if s = "" then .ok 0
    else match pyFloat s with
      | some q => .ok q
      | none => .error ()

/-- The accumulation loop of `OfficeDetailsPage.update_totals`
(`KTS_Transport.py` 596-609), with the four running totals as
accumulators; the grand total is their sum at the end. -/
def updateTotalsAux : List OfficeRec → Rat → Rat → Rat → Rat → Except Unit OfficeTotals
  | [], r, b, s, o => .ok ⟨r, b, s, o, r + b + s + o⟩
  | d :: t, r, b, s, o => do
    let fr ← officeField d "rent"
    let fb ← officeField d "bill"
    let fs ← officeField d "salary"
    let fo ← officeField d "other"
    updateTotalsAux t (r + fr) (b + fb) (s + fs) (o + fo)

/-- `OfficeDetailsPage.update_totals` over the monthly records. -/
def updateTotals (recs : List OfficeRec) : Except Unit OfficeTotals :=
  updateTotalsAux recs 0 0 0 0

/-- The four category keys summed by `update_totals`. -/
def officeKeys : List String := ["rent", "bill", "salary", "other"]

/-- The value a category contributes when no field errors occur. -/
def officeFieldD (d : OfficeRec) (k : String) : Rat :=
  match officeField d k with
  | .ok q => q
  | .error _ => 0

/-- Sum of one category over all month records. -/
def sumField (recs : List OfficeRec) (k : String) : Rat :=
  (recs.map (fun d => officeFieldD d k)).sum

/-! ### Trip CSV import (`KTS_Transport.py`) -/

/-- A trip record of the `KTS_Transport` variant: the five visible cells
plus the trailing details dict (`{}` on creation and import). -/
structure TripRecK where
  cells : List String
  extra : List (String × String)
deriving DecidableEq, Repr

/-- The row loop of `TripPage.import_from_csv` (`KTS_Transport.py`
485-488): keep the rows of exactly 5 fields, each with `{}` appended. -/
def importRows : List (List String) → List TripRecK
  | [] => []
  | r :: t => if r.length = 5 then ⟨r, []⟩ :: importRows t else importRows t

/-- `TripPage.import_from_csv` (`KTS_Transport.py` 477-492): skip the
header row (`next(reader, None)`), collect the accepted rows, and extend
the existing trip sequence with them. -/
def importFromCSV (records : List TripRecK) (rows : List (List String)) : List TripRecK :=
  records ++ importRows (rows.drop 1)

/-! ## Theorems for the claims -/

theorem dget_setVehicleFields_lr (r : VRec) (n d a b : String) :
    dget (setVehicleFields r n d a b) "loan_remaining" = dget r "loan_remaining" := by
  rw [setVehicleFields, dget_dset_ne _ _ (by decide), dget_dset_ne _ _ (by decide),
    dget_dset_ne _ _ (by decide), dget_dset_ne _ _ (by decide)]

theorem dget_newVehicleRec_lr (n d a b : String) :
    dget (newVehicleRec n d a b) "loan_remaining" = none := rfl

/-- C1 counterexample: `VehicleEditDialog.save_and_accept` stores the
derived loan remainder as a separate `loan_remaining` field of the
vehicle's details record, contradicting "never stored as a separate
field by any operation" (the `KTS_Transport` card then even displays the
stored field instead of recomputing). -/
theorem C1_counterexample :
    saveAndAccept [] "Dr" "99" "" "" =
      .ok [("loan_remaining", fmt2 (0 - 0)), ("driver_name", "Dr"), ("driver_contact", "99"),
           ("loan_total", ""), ("loan_paid", "")] ∧
    dget [("loan_remaining", fmt2 (0 - 0)), ("driver_name", "Dr"), ("driver_contact", "99"),
           ("loan_total", ""), ("loan_paid", "")] "loan_remaining" = some (fmt2 (0 - 0)) :=
  ⟨rfl, rfl⟩

/-- C1 amended: the displayed loan remainder always equals
`loan_total - loan_paid`; the `app.py` variant recomputes it on every
read and its vehicle save never introduces a `loan_remaining` field, but
the `KTS_Transport` variant's edit dialog does store the computed value
as a separate `loan_remaining` field of the record. -/
theorem C1_amended :
    (∀ (r : VRec) (a b : Rat), loanField r "loan_total" = some a →
      loanField r "loan_paid" = some b → loanRemainingApp r = some (a - b)) ∧
    (∀ (vs : List (String × VRec)) (vehicleId : Option String)
        (name driver lt lp : String) (out : List (String × VRec)),
      (∀ k r, dget vs k = some r → dget r "loan_remaining" = none) →
      vehicleOnSave vs vehicleId name driver lt lp = .ok out →
      ∀ k r, dget out k = some r → dget r "loan_remaining" = none) ∧
    (∀ (details : List (String × String)) (dn dc lt lp : String) (a b : Rat),
      parseLoan lt = some a → parseLoan lp = some b →
      ∃ out, saveAndAccept details dn dc lt lp = .ok out ∧
        dget out "loan_remaining" = some (fmt2 (a - b))) := by
  refine ⟨fun r a b h1 h2 => ?_, fun vs vid name driver lt lp out h hok => ?_, ?_⟩
  · rw [loanRemainingApp, h1, h2]
  · by_cases hval : name = "" ∨ driver = ""
    · rw [vehicleOnSave, if_pos hval] at hok
      exact Outcome.noConfusion hok
    · rw [vehicleOnSave, if_neg hval] at hok
      by_cases htr : isTruthyOpt vid
      · rw [if_pos htr] at hok
        cases hvd : dget vs (vid.getD "") with
        | none =>
          simp only [hvd] at hok
          exact Outcome.noConfusion hok
        | some r0 =>
          simp only [hvd] at hok
          injection hok with hout
          subst hout
          intro k r hk
          by_cases hkv : k = vid.getD ""
          · subst hkv
            rw [dget_dset_self] at hk
            injection hk with hr
            subst hr
            rw [dget_setVehicleFields_lr]
            exact h _ r0 hvd
          · rw [dget_dset_ne _ _ hkv] at hk
            exact h k r hk
      · rw [if_neg htr] at hok
        injection hok with hout
        subst hout
        intro k r hk
        by_cases hkv : k = newVehicleId vs
        · subst hkv
          rw [dget_dset_self] at hk
          injection hk with hr
          subst hr
          exact dget_newVehicleRec_lr name driver lt lp
        · rw [dget_dset_ne _ _ hkv] at hk
          exact h k r hk
  · intro details dn dc lt lp a b h1 h2
    refine ⟨_, by rw [saveAndAccept, h1, h2], ?_⟩
    rw [dget_dset_ne _ _ (by decide), dget_dset_ne _ _ (by decide),
      dget_dset_ne _ _ (by decide), dget_dset_ne _ _ (by decide), dget_dset_self]

/-- C1 amended, witnessed on concrete records (absent loan fields read as
0; the KTS dialog stores the field). -/
theorem C1_amended_witness :
    loanRemainingApp [("name", "T")] = some (0 - 0) ∧
    (∃ out, saveAndAccept [] "Dr" "99" "" "" = .ok out ∧
      dget out "loan_remaining" = some (fmt2 (0 - 0))) :=
  ⟨C1_amended.1 [("name", "T")] 0 0 rfl rfl,
   C1_amended.2.2 [] "Dr" "99" "" "" 0 0 rfl rfl⟩

/-- C3 counterexample: add "A" (gets id "1"), add "B" (gets id "2"),
delete id "1"; the next add computes `str(len + 1) = "2"`, which is
already bound to vehicle "B", and the dict assignment overwrites "B" —
ids ARE reused after a deletion. -/
theorem C3_counterexample :
    vehicleOnSave [] none "A" "D" "" "" = .ok [("1", newVehicleRec "A" "D" "" "")] ∧
    vehicleOnSave [("1", newVehicleRec "A" "D" "" "")] none "B" "E" "" "" =
      .ok [("1", newVehicleRec "A" "D" "" ""), ("2", newVehicleRec "B" "E" "" "")] ∧
    ddel [("1", newVehicleRec "A" "D" "" ""), ("2", newVehicleRec "B" "E" "" "")] "1" =
      [("2", newVehicleRec "B" "E" "" "")] ∧
    newVehicleId [("2", newVehicleRec "B" "E" "" "")] = "2" ∧
    dget [("2", newVehicleRec "B" "E" "" "")] "2" = some (newVehicleRec "B" "E" "" "") ∧
    vehicleOnSave [("2", newVehicleRec "B" "E" "" "")] none "C" "F" "" "" =
      .ok [("2", newVehicleRec "C" "F" "" "")] :=
  ⟨by decide, by decide, by decide, by decide, by decide, by decide⟩

/-- C3 amended: a valid add assigns the new id `str(current_count + 1)`
and binds it; as long as that id is not already a key (as in any
deletion-free history) the id is fresh and all other bindings are
preserved, but after a deletion the count-based id can coincide with an
existing key, whose vehicle is then overwritten. -/
theorem C3_amended (vs : List (String × VRec)) (name driver lt lp : String)
    (h1 : name ≠ "") (h2 : driver ≠ "") :
    vehicleOnSave vs none name driver lt lp =
      .ok (dset vs (newVehicleId vs) (newVehicleRec name driver lt lp)) ∧
    (dget vs (newVehicleId vs) = none →
      dget (dset vs (newVehicleId vs) (newVehicleRec name driver lt lp)) (newVehicleId vs) =
        some (newVehicleRec name driver lt lp) ∧
      ∀ k, k ≠ newVehicleId vs →
        dget (dset vs (newVehicleId vs) (newVehicleRec name driver lt lp)) k = dget vs k) := by
  constructor
  · rw [vehicleOnSave, if_neg (by simp [h1, h2])]
    rfl
  · exact fun _ => ⟨dget_dset_self _ _ _, fun k hk => dget_dset_ne _ _ hk⟩

/-- C3 amended, witnessed on the first add into an empty store. -/
theorem C3_amended_witness :
    vehicleOnSave [] none "A" "D" "" "" =
      .ok (dset [] (newVehicleId []) (newVehicleRec "A" "D" "" "")) ∧
    dget (dset [] (newVehicleId []) (newVehicleRec "A" "D" "" "")) (newVehicleId []) =
      some (newVehicleRec "A" "D" "" "") :=
  ⟨(C3_amended [] "A" "D" "" "" (by decide) (by decide)).1,
   ((C3_amended [] "A" "D" "" "" (by decide) (by decide)).2 rfl).1⟩

/-- C4 counterexample: the `app.py` vehicle save accepts a non-numeric
loan field without any validation error — the record is stored as-is and
`save_data` runs, contradicting "reports a ValidationError ... and no
save is triggered". -/
theorem C4_counterexample :
    pyFloat "abc" = none ∧
    vehicleOnSave [] none "A" "D" "abc" "1" =
      .ok [("1", newVehicleRec "A" "D" "abc" "1")] := by
  decide

/-- C4 amended: empty required fields are rejected with a validation
warning, no state change and no save, and the `KTS_Transport` edit
dialog rejects non-numeric loan amounts the same way; but the `app.py`
vehicle save accepts and saves non-numeric loan fields unchecked, and
its trip edit raises an uncaught error on a non-numeric distance, after
the four other fields were already mutated in place, without saving. -/
theorem C4_amended :
    (∀ (vs : List (String × VRec)) (vehicleId : Option String)
        (name driver lt lp : String), name = "" ∨ driver = "" →
      vehicleOnSave vs vehicleId name driver lt lp = .valError vs) ∧
    (∀ (trips : List TripA) (vid date src dst dist : String),
      vid = "" ∨ date = "" ∨ src = "" ∨ dst = "" ∨ dist = "" →
      tripOnSaveAdd trips vid date src dst dist = .valError trips) ∧
    (∀ (details : List (String × String)) (dn dc lt lp : String),
      parseLoan lt = none ∨ parseLoan lp = none →
      saveAndAccept details dn dc lt lp = .valError details) ∧
    (∀ (vs : List (String × VRec)) (name driver lt lp : String),
      name ≠ "" → driver ≠ "" → pyFloat lt = none →
      vehicleOnSave vs none name driver lt lp =
        .ok (dset vs (newVehicleId vs) (newVehicleRec name driver lt lp))) ∧
    (∀ (t : TripA) (vid date src dst dist : String),
      vid ≠ "" → date ≠ "" → src ≠ "" → dst ≠ "" → dist ≠ "" → pyFloat dist = none →
      tripOnSaveEdit t vid date src dst dist = .exn ⟨vid, date, src, dst, t.distance⟩) := by
  refine ⟨fun vs vid name driver lt lp h => ?_, fun trips vid date src dst dist h => ?_,
    fun details dn dc lt lp h => ?_, fun vs name driver lt lp h1 h2 _ => ?_,
    fun t vid date src dst dist h1 h2 h3 h4 h5 h6 => ?_⟩
  · rw [vehicleOnSave, if_pos h]
  · rw [tripOnSaveAdd, if_pos h]
  · cases hlt : parseLoan lt with
    | none => rw [saveAndAccept, hlt]
    | some a =>
      rcases h with h | h
      · rw [hlt] at h; exact Option.noConfusion h
      · rw [saveAndAccept, hlt, h]
  · rw [vehicleOnSave, if_neg (by simp [h1, h2])]
    rfl
  · rw [tripOnSaveEdit, if_neg (by simp [h1, h2, h3, h4, h5]), h6]

/-- C4 amended, witnessed: empty-name rejection, non-numeric loan
rejection in the KTS dialog, and the partial mutation on a trip edit
with a non-numeric distance. -/
theorem C4_amended_witness :
    vehicleOnSave [("1", newVehicleRec "A" "D" "" "")] none "" "D" "1" "2" =
      .valError [("1", newVehicleRec "A" "D" "" "")] ∧
    saveAndAccept [] "Dr" "99" "abc" "1" = .valError [] ∧
    tripOnSaveEdit ⟨"1", "2024-01-01", "a", "b", 7⟩ "2" "2024-02-02" "c" "d" "xyz" =
      .exn ⟨"2", "2024-02-02", "c", "d", 7⟩ :=
  ⟨C4_amended.1 _ none "" "D" "1" "2" (Or.inl rfl),
   C4_amended.2.2.1 [] "Dr" "99" "abc" "1" (Or.inl (by decide)),
   C4_amended.2.2.2.2 ⟨"1", "2024-01-01", "a", "b", 7⟩ "2" "2024-02-02" "c" "d" "xyz"
     (by decide) (by decide) (by decide) (by decide) (by decide) (by decide)⟩

/-- C2 counterexample: the `KTS_Transport` variant's `load_data` on an
absent (or malformed) file returns the bare empty object `{}` — the
`vehicles` collection (like the other three) is not present in the
result, contradicting "all four collections are present and empty". -/
theorem C2_counterexample :
    load_data_kts .missing = Json.obj [] ∧
    jget (load_data_kts .missing) "vehicles" = none ∧
    jget (load_data_kts .malformed) "trips" = none :=
  ⟨rfl, rfl, rfl⟩

/-- C2 amended: on an absent or unparseable file neither loader fails;
`app.py`'s `load_data` returns the freshly initialized Document with all
four collections present and empty, while the `KTS_Transport` variant's
`load_data` returns an empty JSON object in which no collection is
present (its callers default the collections with `.get`). -/
theorem C2_amended (fs : FileState) (h : fs = .missing ∨ fs = .malformed) :
    load_data_app fs = initialize_data ∧
    jget (load_data_app fs) "vehicles" = some (.obj []) ∧
    jget (load_data_app fs) "trips" = some (.arr []) ∧
    jget (load_data_app fs) "vehicle_expenses" = some (.arr []) ∧
    jget (load_data_app fs) "office_expenses" = some (.arr []) ∧
    load_data_kts fs = .obj [] := by
  rcases h with h | h <;> subst h <;>
    exact ⟨rfl, rfl, rfl, rfl, rfl, rfl⟩

/-- C2 amended, witnessed at a missing file. -/
theorem C2_amended_witness :
    load_data_app .missing = initialize_data ∧
    jget (load_data_app .missing) "vehicles" = some (.obj []) ∧
    jget (load_data_app .missing) "trips" = some (.arr []) ∧
    jget (load_data_app .missing) "vehicle_expenses" = some (.arr []) ∧
    jget (load_data_app .missing) "office_expenses" = some (.arr []) ∧
    load_data_kts .missing = .obj [] :=
  C2_amended .missing (Or.inl rfl)

/-- C5 counterexample: under the bounded window "Last 1 Month" a record
whose date field is empty — which fails to parse as a calendar date — is
NOT excluded: the filter skips the date bound for it and keeps it, while
the record with a parseable out-of-range date is dropped. -/
theorem C5_counterexample :
    parseYMD "" = none ∧
    applyFilters ⟨2026, 10, 12⟩
      [["2020-01-01", "truck", "Fuel", "5"], ["", "truck", "Fuel", "5"]] "" "Last 1 Month" =
      [["", "truck", "Fuel", "5"]] := by
  exact ⟨by decide, by decide⟩

/-- C5 amended: the four non-ALL windows bound dates by
`[today - period, today]` inclusively; a record with a parseable date is
kept exactly when its vehicle matches and its date lies in that range,
while a record whose date field is empty or otherwise yields no parsed
date skips the date bound and is kept whenever its vehicle matches,
rather than being excluded; under ALL the date bound is disabled for
every record, which is kept exactly when its vehicle matches. -/
theorem C5_amended (today : Date) :
    (dateFromOf today "Last 1 Month" = some (addMonths today (-1)) ∧
     dateFromOf today "Last 3 Months" = some (addMonths today (-3)) ∧
     dateFromOf today "Last 6 Months" = some (addMonths today (-6)) ∧
     dateFromOf today "Last 12 Months" = some (addYears today (-1)) ∧
     dateFromOf today "All" = none) ∧
    (∀ (records : List (List String)) (vtext w : String) (df : Date) (r : List String),
      dateFromOf today w = some df →
      (r ∈ applyFilters today records vtext w ↔
        r ∈ records ∧ vehicleMatchB (pyLower (pyStrip vtext)) r = true ∧
        ∀ rd, recordDateOf r = some rd → dleb df rd = true ∧ dleb rd today = true)) ∧
    (∀ (records : List (List String)) (vtext : String) (r : List String),
      r ∈ applyFilters today records vtext "All" ↔
        r ∈ records ∧ vehicleMatchB (pyLower (pyStrip vtext)) r = true) := by
  refine ⟨⟨rfl, rfl, rfl, rfl, rfl⟩, fun records vtext w df r hdf => ?_,
    fun records vtext r => ?_⟩
  · rw [applyFilters]
    simp only [hdf, List.mem_filter, Bool.and_eq_true, and_assoc]
    cases hrd : recordDateOf r with
    | none => simp [dateMatchB, hrd]
    | some rd => simp [dateMatchB, hrd, Bool.and_eq_true]
  · rw [applyFilters]
    simp [dateFromOf, dateMatchB, List.mem_filter]

/-- C5 amended, witnessed on a record inside the one-month window and on
a record with a non-empty unparseable date under the same window. -/
theorem C5_amended_witness :
    (["2026-10-01", "truck", "Fuel", "5"] ∈
      applyFilters ⟨2026, 10, 12⟩ [["2026-10-01", "truck", "Fuel", "5"]] "" "Last 1 Month" ↔
     ["2026-10-01", "truck", "Fuel", "5"] ∈ [["2026-10-01", "truck", "Fuel", "5"]] ∧
     vehicleMatchB (pyLower (pyStrip "")) ["2026-10-01", "truck", "Fuel", "5"] = true ∧
     ∀ rd, recordDateOf ["2026-10-01", "truck", "Fuel", "5"] = some rd →
       dleb ⟨2026, 9, 12⟩ rd = true ∧ dleb rd ⟨2026, 10, 12⟩ = true) ∧
    (["bad-date", "truck", "Fuel", "5"] ∈
      applyFilters ⟨2026, 10, 12⟩ [["bad-date", "truck", "Fuel", "5"]] "" "Last 1 Month" ↔
     ["bad-date", "truck", "Fuel", "5"] ∈ [["bad-date", "truck", "Fuel", "5"]] ∧
     vehicleMatchB (pyLower (pyStrip "")) ["bad-date", "truck", "Fuel", "5"] = true ∧
     ∀ rd, recordDateOf ["bad-date", "truck", "Fuel", "5"] = some rd →
       dleb ⟨2026, 9, 12⟩ rd = true ∧ dleb rd ⟨2026, 10, 12⟩ = true) :=
  ⟨(C5_amended ⟨2026, 10, 12⟩).2.1 [["2026-10-01", "truck", "Fuel", "5"]] "" "Last 1 Month"
     ⟨2026, 9, 12⟩ ["2026-10-01", "truck", "Fuel", "5"] (by decide),
   (C5_amended ⟨2026, 10, 12⟩).2.1 [["bad-date", "truck", "Fuel", "5"]] "" "Last 1 Month"
     ⟨2026, 9, 12⟩ ["bad-date", "truck", "Fuel", "5"] (by decide)⟩

/-- C8: with an empty vehicle filter and the "All" window the filter
returns every record in its original order, and for any filter text and
window the output is an order-preserving subsequence of the input (the
loop only appends matches, never re-sorts). -/
theorem C8_theorem (today : Date) (records : List (List String))
    (h : ∀ r ∈ records, r ≠ []) :
    applyFilters today records "" "All" = records ∧
    ∀ vtext w, (applyFilters today records vtext w).Sublist records := by
  constructor
  · rw [applyFilters, List.filter_eq_self]
    intro r _
    have hv : vehicleMatchB (pyLower (pyStrip "")) r = true := by
      simp [vehicleMatchB, pyLower, pyStrip]
    have hd : dateMatchB (dateFromOf today "All") today (recordDateOf r) = true := by
      simp [dateFromOf, dateMatchB]
    rw [hv, hd]
    rfl
  · exact fun vtext w => List.filter_sublist records

/-- C8 witnessed on a concrete record list. -/
theorem C8_theorem_witness :
    applyFilters ⟨2026, 10, 12⟩
      [["2020-01-01", "x", "Fuel", "5"], ["bad-date", "y", "Toll", "2"]] "" "All" =
      [["2020-01-01", "x", "Fuel", "5"], ["bad-date", "y", "Toll", "2"]] :=
  (C8_theorem ⟨2026, 10, 12⟩
    [["2020-01-01", "x", "Fuel", "5"], ["bad-date", "y", "Toll", "2"]] (by decide)).1

/-- C7: `delete_vehicle` removes exactly the one entry: the trips and
both expense collections are untouched (no cascade), every other
vehicle's binding is unchanged, the deleted id is gone, and the
name lookup used by the table views resolves the id to "N/A". -/
theorem C7_theorem (doc : AppDoc) (vid : String) :
    (deleteVehicle doc vid).1.trips = doc.trips ∧
    (deleteVehicle doc vid).1.vehicle_expenses = doc.vehicle_expenses ∧
    (deleteVehicle doc vid).1.office_expenses = doc.office_expenses ∧
    dget (deleteVehicle doc vid).1.vehicles vid = none ∧
    resolveVehicleName (deleteVehicle doc vid).1.vehicles vid = "N/A" ∧
    ∀ k, k ≠ vid → dget (deleteVehicle doc vid).1.vehicles k = dget doc.vehicles k := by
  by_cases h : (dget doc.vehicles vid).isSome
  · refine ⟨by simp [deleteVehicle, h], by simp [deleteVehicle, h],
      by simp [deleteVehicle, h], ?_, ?_, ?_⟩
    · simp [deleteVehicle, h, dget_ddel_self]
    · simp [deleteVehicle, h, resolveVehicleName, dget_ddel_self]
    · intro k hk
      simp [deleteVehicle, h, dget_ddel_ne _ hk]
  · have h0 : dget doc.vehicles vid = none :=
      Option.not_isSome_iff_eq_none.mp h
    exact ⟨by simp [deleteVehicle, h], by simp [deleteVehicle, h],
      by simp [deleteVehicle, h], by simp [deleteVehicle, h, h0],
      by simp [deleteVehicle, h, resolveVehicleName, h0],
      fun k _ => by simp [deleteVehicle, h]⟩

/-- C7 witnessed on a concrete document: deleting vehicle "1" leaves the
trip referencing it dangling and its name resolves to "N/A". -/
theorem C7_theorem_witness :
    (deleteVehicle ⟨[("1", newVehicleRec "T1" "D" "5" "2")],
        [⟨"1", "2024-01-01", "a", "b", 10⟩], [], []⟩ "1").1.trips =
      [⟨"1", "2024-01-01", "a", "b", 10⟩] ∧
    resolveVehicleName (deleteVehicle ⟨[("1", newVehicleRec "T1" "D" "5" "2")],
        [⟨"1", "2024-01-01", "a", "b", 10⟩], [], []⟩ "1").1.vehicles "1" = "N/A" ∧
    dget (deleteVehicle ⟨[("1", newVehicleRec "T1" "D" "5" "2")],
        [⟨"1", "2024-01-01", "a", "b", 10⟩], [], []⟩ "1").1.vehicles "2" =
      dget [("1", newVehicleRec "T1" "D" "5" "2")] "2" := by
  have h := C7_theorem ⟨[("1", newVehicleRec "T1" "D" "5" "2")],
    [⟨"1", "2024-01-01", "a", "b", 10⟩], [], []⟩ "1"
  exact ⟨h.1, h.2.2.2.2.1, h.2.2.2.2.2 "2" (by decide)⟩

theorem updateTotalsAux_ok :
    ∀ (recs : List OfficeRec),
      (∀ d ∈ recs, ∀ k ∈ officeKeys, ∃ q, officeField d k = .ok q) →
      ∀ r b s o, updateTotalsAux recs r b s o =
        .ok ⟨r + sumField recs "rent", b + sumField recs "bill",
          s + sumField recs "salary", o + sumField recs "other",
          r + sumField recs "rent" + (b + sumField recs "bill") +
            (s + sumField recs "salary") + (o + sumField recs "other")⟩ := by
  intro recs
  induction recs with
  | nil =>
    intro _ r b s o
    simp [updateTotalsAux, sumField]
  | cons d t ih =>
    intro h r b s o
    obtain ⟨qr, hqr⟩ := h d (by simp) "rent" (by simp [officeKeys])
    obtain ⟨qb, hqb⟩ := h d (by simp) "bill" (by simp [officeKeys])
    obtain ⟨qs, hqs⟩ := h d (by simp) "salary" (by simp [officeKeys])
    obtain ⟨qo, hqo⟩ := h d (by simp) "other" (by simp [officeKeys])
    have ht : ∀ d' ∈ t, ∀ k ∈ officeKeys, ∃ q, officeField d' k = .ok q :=
      fun d' hd' => h d' (by simp [hd'])
    rw [updateTotalsAux]
    simp only [hqr, hqb, hqs, hqo, Except.instMonad, Except.bind]
    rw [ih ht (r + qr) (b + qb) (s + qs) (o + qo)]
    simp only [sumField, List.map_cons, List.sum_cons, officeFieldD, hqr, hqb, hqs, hqo,
      Except.ok.injEq, OfficeTotals.mk.injEq]
    refine ⟨by ring, by ring, by ring, by ring, by ring⟩

theorem updateTotalsAux_ok_fields :
    ∀ (recs : List OfficeRec) (r b s o : Rat) (t0 : OfficeTotals),
      updateTotalsAux recs r b s o = .ok t0 →
      ∀ d ∈ recs, ∀ k ∈ officeKeys, ∃ q, officeField d k = .ok q := by
  intro recs
  induction recs with
  | nil => intro r b s o t0 _ d hd; exact absurd hd (by simp)
  | cons d t ih =>
    intro r b s o t0 hok d' hd' k hk
    rw [updateTotalsAux] at hok
    cases hr : officeField d "rent" with
    | error e =>
      simp only [hr, Except.instMonad, Except.bind] at hok
      exact Except.noConfusion hok
    | ok qr =>
    cases hb : officeField d "bill" with
    | error e =>
      simp only [hr, hb, Except.instMonad, Except.bind] at hok
      exact Except.noConfusion hok
    | ok qb =>
    cases hs : officeField d "salary" with
    | error e =>
      simp only [hr, hb, hs, Except.instMonad, Except.bind] at hok
      exact Except.noConfusion hok
    | ok qs =>
    cases ho : officeField d "other" with
    | error e =>
      simp only [hr, hb, hs, ho, Except.instMonad, Except.bind] at hok
      exact Except.noConfusion hok
    | ok qo =>
    simp only [hr, hb, hs, ho, Except.instMonad, Except.bind] at hok
    rcases List.mem_cons.mp hd' with rfl | hd't
    · simp only [officeKeys, List.mem_cons, List.not_mem_nil, or_false] at hk
      rcases hk with rfl | rfl | rfl | rfl
      · exact ⟨qr, hr⟩
      · exact ⟨qb, hb⟩
      · exact ⟨qs, hs⟩
      · exact ⟨qo, ho⟩
    · exact ih _ _ _ _ _ hok d' hd't k hk

/-- C6: the office totals sum each of the four categories over all month
records plus a grand total; an absent or empty field contributes 0; a
record with a non-numeric string in one of the four fields makes the
computation fail (a raised `ValueError`, not a silent 0); and the two
records of the spec's example produce exactly the stated totals. -/
theorem C6_theorem :
    (∀ (d : OfficeRec) (k : String), dget d k = none → officeField d k = .ok 0) ∧
    (∀ (d : OfficeRec) (k : String), dget d k = some "" → officeField d k = .ok 0) ∧
    (∀ recs : List OfficeRec,
      (∀ d ∈ recs, ∀ k ∈ officeKeys, ∃ q, officeField d k = .ok q) →
      updateTotals recs = .ok ⟨sumField recs "rent", sumField recs "bill",
        sumField recs "salary", sumField recs "other",
        sumField recs "rent" + sumField recs "bill" + sumField recs "salary" +
          sumField recs "other"⟩) ∧
    (∀ (recs : List OfficeRec) (d : OfficeRec) (k : String),
      d ∈ recs → k ∈ officeKeys → officeField d k = .error () →
      updateTotals recs = .error ()) ∧
    updateTotals [[("rent", "100")], [("rent", "50"), ("bill", "20")]] =
      .ok ⟨150, 20, 0, 0, 170⟩ := by
  refine ⟨fun d k h => ?_, fun d k h => ?_, fun recs h => ?_, fun recs d k hd hk herr => ?_, ?_⟩
  · rw [officeField, h]
  · rw [officeField, h]
    rfl
  · have := updateTotalsAux_ok recs h 0 0 0 0
    rw [updateTotals, this]
    simp
  · cases hu : updateTotals recs with
    | error e => cases e; rfl
    | ok t0 =>
      obtain ⟨q, hq⟩ :=
        updateTotalsAux_ok_fields recs 0 0 0 0 t0 hu d hd k hk
      rw [herr] at hq
      exact Except.noConfusion hq
  · simp [updateTotals, updateTotalsAux, officeField, dget, pyFloat, digitsToNat,
      Except.instMonad, Except.bind]
    norm_num

/-- C6 witnessed: an empty month record defaults every category to 0 and
the totals are the (zero) category sums. -/
theorem C6_theorem_witness :
    officeField [] "rent" = .ok 0 ∧
    updateTotals [[]] = .ok ⟨sumField [[]] "rent", sumField [[]] "bill",
      sumField [[]] "salary", sumField [[]] "other",
      sumField [[]] "rent" + sumField [[]] "bill" + sumField [[]] "salary" +
        sumField [[]] "other"⟩ :=
  ⟨C6_theorem.1 [] "rent" rfl,
   C6_theorem.2.2.1 [[]] (by
    intro d hd k _
    simp only [List.mem_singleton] at hd
    subst hd
    exact ⟨0, rfl⟩)⟩

/-- The import loop keeps, in order, exactly the rows of five fields,
each extended with the empty details dict. -/
theorem importRows_eq (rows : List (List String)) :
    importRows rows =
      (rows.filter (fun r => r.length == 5)).map (fun r => TripRecK.mk r []) := by
  induction rows with
  | nil => rfl
  | cons r t ih =>
    by_cases h : r.length = 5 <;> simp [importRows, h, ih]

/-- C9: CSV import skips the header row, appends exactly the remaining
rows with exactly 5 fields (in input order, after the existing trips),
and accepts any field contents — no date or distance validation. -/
theorem C9_theorem :
    (∀ (records : List TripRecK) (rows : List (List String)),
      importFromCSV records rows =
        records ++ ((rows.drop 1).filter (fun r => r.length == 5)).map
          (fun r => TripRecK.mk r [])) ∧
    (∀ d v s t dist : String,
      importFromCSV []
        [["Date", "Vehicle No", "Starting Location", "Destination", "Distance (km)"],
         [d, v, s, t, dist]] = [⟨[d, v, s, t, dist], []⟩]) := by
  refine ⟨fun records rows => ?_, fun d v s t dist => rfl⟩
  rw [importFromCSV, importRows_eq]

/-- C10: in the `KTS_Transport` variant, adding a vehicle whose stripped
name is non-empty is never rejected as a duplicate: the name is rebound
to a fresh empty details dict (so any previously stored driver name,
contact and loan fields under that name are discarded), and every other
vehicle's binding is unchanged. -/
theorem C10_theorem (m : List (String × List (String × String))) (raw : String)
    (h : pyStrip raw ≠ "") :
    ktsAddVehicle m raw = .ok (dset m (pyStrip raw) []) ∧
    dget (dset m (pyStrip raw) []) (pyStrip raw) = some [] ∧
    ∀ k, k ≠ pyStrip raw → dget (dset m (pyStrip raw) []) k = dget m k := by
  exact ⟨by simp [ktsAddVehicle, h], dget_dset_self _ _ _,
    fun k hk => dget_dset_ne _ _ hk⟩

/-- C10 witnessed: re-adding the existing name "Truck 1" overwrites its
stored details with the empty dict. -/
theorem C10_theorem_witness :
    ktsAddVehicle [("Truck 1", [("driver_name", "Bob"), ("loan_total", "9")])] "Truck 1" =
      .ok (dset [("Truck 1", [("driver_name", "Bob"), ("loan_total", "9")])] "Truck 1" []) ∧
    dget (dset [("Truck 1", [("driver_name", "Bob"), ("loan_total", "9")])] "Truck 1" [])
      "Truck 1" = some [] := by
  have h := C10_theorem [("Truck 1", [("driver_name", "Bob"), ("loan_total", "9")])]
    "Truck 1" (by decide)
  exact ⟨h.1, h.2.1⟩

end KTS
